import Mathlib

/-!
# Verification of the zen-mcp-server tool layer

A shallow embedding of the repository's tool implementations
(`tools/autotest.py`, `tools/depmap.py`, `tools/validator.py`) and of the
provider test harness (`test_all_providers.py`), together with
spec-modelled definitions for the Provider Router and prompt-assembly
components whose implementation is not part of the sources at hand.

Conventions:
* Python strings are `String`; file-system and subprocess effects are
  abstracted into explicit environment records passed to the functions.
* Fallible Python code is embedded with `Except`; an uncaught Python
  exception is an `Except.error` result that propagates.
* JSON-schema field descriptions (pure documentation strings pulled from
  `COMMON_FIELD_DESCRIPTIONS`) are omitted from the schema embedding: no
  claim concerns the description text.
-/

namespace ZenMcp

/-- Python `needle in s` substring test. -/
def strHas (s pat : String) : Bool := decide (pat.toList <:+: s.toList)

/-! ## JSON input schemas (`get_input_schema` of the three tools) -/

/-- The JSON types used by the three tools' schemas. -/
inductive JType
  | object | string | number | integer | boolean | array
deriving DecidableEq, Repr

/-- One property entry of an input schema (descriptions omitted). -/
structure PropSchema where
  jtype : JType
  enumVals : Option (List String) := none
  minimum : Option Nat := none
  maximum : Option Nat := none
  items : Option JType := none
  default : Option Nat := none
deriving DecidableEq, Repr

/-- The shape of the dictionaries returned by `get_input_schema`. -/
structure InputSchema where
  properties : List (String × PropSchema)
  required : List String
  additionalProperties : Bool
deriving DecidableEq, Repr

/-- Modelled from the spec: `get_model_field_schema` comes from the shared
`SimpleTool` base, which is not among the sources; per §6 of the spec the
`model` field is a string. -/
def get_model_field_schema : PropSchema := { jtype := .string }

/-- The `temperature` property shared verbatim by all three tools. -/
def temperatureProp : PropSchema := { jtype := .number, minimum := some 0, maximum := some 1 }

/-- The `thinking_mode` property shared verbatim by all three tools. -/
def thinkingModeProp : PropSchema :=
  { jtype := .string, enumVals := some ["minimal", "low", "medium", "high", "max"] }

/-- The `continuation_id` property shared verbatim by all three tools. -/
def continuationIdProp : PropSchema := { jtype := .string }

namespace AutoTestTool

/-- `AutoTestTool.get_input_schema`, parameterized by the result of
`is_effective_auto_mode()` (inherited from the shared base). -/
def get_input_schema (is_effective_auto_mode : Bool) : InputSchema :=
  { properties :=
      [ ("working_directory", { jtype := .string }),
        ("changed_files", { jtype := .array, items := some .string }),
        ("test_framework", { jtype := .string }),
        ("model", get_model_field_schema),
        ("temperature", temperatureProp),
        ("thinking_mode", thinkingModeProp),
        ("continuation_id", continuationIdProp) ],
    required := ["working_directory"] ++ (if is_effective_auto_mode then ["model"] else []),
    additionalProperties := false }

end AutoTestTool

namespace DepMapTool

/-- `DepMapTool.get_input_schema`, parameterized by `is_effective_auto_mode()`. -/
def get_input_schema (is_effective_auto_mode : Bool) : InputSchema :=
  { properties :=
      [ ("target_file", { jtype := .string }),
        ("working_directory", { jtype := .string }),
        ("depth", { jtype := .integer, default := some 1 }),
        ("model", get_model_field_schema),
        ("temperature", temperatureProp),
        ("thinking_mode", thinkingModeProp),
        ("continuation_id", continuationIdProp) ],
    required := ["target_file", "working_directory"] ++ (if is_effective_auto_mode then ["model"] else []),
    additionalProperties := false }

end DepMapTool

namespace ValidatorTool

/-- `ValidatorTool.get_input_schema`, parameterized by `is_effective_auto_mode()`. -/
def get_input_schema (is_effective_auto_mode : Bool) : InputSchema :=
  { properties :=
      [ ("target_file", { jtype := .string }),
        ("check_imports", { jtype := .boolean }),
        ("check_types", { jtype := .boolean }),
        ("model", get_model_field_schema),
        ("temperature", temperatureProp),
        ("thinking_mode", thinkingModeProp),
        ("continuation_id", continuationIdProp) ],
    required := ["target_file"] ++ (if is_effective_auto_mode then ["model"] else []),
    additionalProperties := false }

end ValidatorTool

/-- Modelled from the spec: the schema-validation step of the Tool Contract
Layer is not among the sources; per §6, "Unknown fields are rejected
(`additionalProperties: false` semantics)". This is the key-acceptance part
of that validation: when `additionalProperties` is `false`, every key of the
raw request must name a declared property. -/
def keysAccepted (s : InputSchema) (keys : List String) : Bool :=
  if s.additionalProperties then true
  else keys.all (fun k => (s.properties.map Prod.fst).contains k)

/-- Model category of a tool, consumed by the Provider Router. Modelled from
the spec: `tools/models.py` is not among the sources; §3 of the spec
describes `ToolModelCategory` as an enumerated tag such as fast-response,
balanced, deep-reasoning. -/
inductive ToolModelCategory
  | FAST_RESPONSE | BALANCED | EXTENDED_REASONING
deriving DecidableEq, Repr

/-- `AutoTestTool.get_model_category` (source returns `ToolModelCategory.FAST_RESPONSE`). -/
def AutoTestTool.get_model_category : ToolModelCategory := .FAST_RESPONSE

/-- `DepMapTool.get_model_category` (source returns `ToolModelCategory.FAST_RESPONSE`). -/
def DepMapTool.get_model_category : ToolModelCategory := .FAST_RESPONSE

/-- `ValidatorTool.get_model_category` (source returns `ToolModelCategory.FAST_RESPONSE`). -/
def ValidatorTool.get_model_category : ToolModelCategory := .FAST_RESPONSE

/-! ## Claims about the schemas -/

/-- C1: for each of the three tools, `get_input_schema` lists `"model"` in
its `required` array exactly when `is_effective_auto_mode()` is true, and
`"model"` is always present among the declared properties (hence optional
when auto mode is not in effect). -/
theorem c1_model_required_iff_auto_mode (b : Bool) :
    (("model" ∈ (AutoTestTool.get_input_schema b).required ↔ b = true)
      ∧ "model" ∈ (AutoTestTool.get_input_schema b).properties.map Prod.fst)
    ∧ (("model" ∈ (DepMapTool.get_input_schema b).required ↔ b = true)
      ∧ "model" ∈ (DepMapTool.get_input_schema b).properties.map Prod.fst)
    ∧ (("model" ∈ (ValidatorTool.get_input_schema b).required ↔ b = true)
      ∧ "model" ∈ (ValidatorTool.get_input_schema b).properties.map Prod.fst) := by
  cases b <;> decide

/-- C3: each of the three schemas sets `additionalProperties := false`, and
under the spec's `additionalProperties: false` validation semantics a raw
request carrying any key that is not a declared property is rejected. -/
theorem c3_additional_properties_false (b : Bool) (keys : List String) (k : String)
    (hk : k ∈ keys)
    (ha : k ∉ (AutoTestTool.get_input_schema b).properties.map Prod.fst)
    (hd : k ∉ (DepMapTool.get_input_schema b).properties.map Prod.fst)
    (hv : k ∉ (ValidatorTool.get_input_schema b).properties.map Prod.fst) :
    ((AutoTestTool.get_input_schema b).additionalProperties = false
        ∧ keysAccepted (AutoTestTool.get_input_schema b) keys = false)
    ∧ ((DepMapTool.get_input_schema b).additionalProperties = false
        ∧ keysAccepted (DepMapTool.get_input_schema b) keys = false)
    ∧ ((ValidatorTool.get_input_schema b).additionalProperties = false
        ∧ keysAccepted (ValidatorTool.get_input_schema b) keys = false) := by
  have key : ∀ s : InputSchema, s.additionalProperties = false →
      k ∉ s.properties.map Prod.fst → keysAccepted s keys = false := by
    intro s hs hks
    unfold keysAccepted
    rw [hs]
    simp only [Bool.false_eq_true, if_false, List.all_eq_false]
    exact ⟨k, hk, by simpa using hks⟩
  have hA : (AutoTestTool.get_input_schema b).additionalProperties = false := by
    cases b <;> rfl
  have hD : (DepMapTool.get_input_schema b).additionalProperties = false := by
    cases b <;> rfl
  have hV : (ValidatorTool.get_input_schema b).additionalProperties = false := by
    cases b <;> rfl
  exact ⟨⟨hA, key _ hA ha⟩, ⟨hD, key _ hD hd⟩, ⟨hV, key _ hV hv⟩⟩

/-- Witness for C3 at a concrete unknown key. -/
theorem c3_additional_properties_false_witness :
    ((AutoTestTool.get_input_schema false).additionalProperties = false
        ∧ keysAccepted (AutoTestTool.get_input_schema false) ["working_directory", "bogus_field"] = false)
    ∧ ((DepMapTool.get_input_schema false).additionalProperties = false
        ∧ keysAccepted (DepMapTool.get_input_schema false) ["working_directory", "bogus_field"] = false)
    ∧ ((ValidatorTool.get_input_schema false).additionalProperties = false
        ∧ keysAccepted (ValidatorTool.get_input_schema false) ["working_directory", "bogus_field"] = false) :=
  c3_additional_properties_false false ["working_directory", "bogus_field"] "bogus_field"
    (by decide) (by decide) (by decide) (by decide)

/-- C4: in each of the three schemas, `temperature` is a number with minimum
0 and maximum 1, `thinking_mode` is a string whose enum is exactly
`["minimal", "low", "medium", "high", "max"]`, and `continuation_id` is a
string that is never listed in `required`. -/
theorem c4_common_field_schemas (b : Bool) :
    ((AutoTestTool.get_input_schema b).properties.lookup "temperature" = some temperatureProp
      ∧ (AutoTestTool.get_input_schema b).properties.lookup "thinking_mode" = some thinkingModeProp
      ∧ (AutoTestTool.get_input_schema b).properties.lookup "continuation_id" = some continuationIdProp
      ∧ "continuation_id" ∉ (AutoTestTool.get_input_schema b).required)
    ∧ ((DepMapTool.get_input_schema b).properties.lookup "temperature" = some temperatureProp
      ∧ (DepMapTool.get_input_schema b).properties.lookup "thinking_mode" = some thinkingModeProp
      ∧ (DepMapTool.get_input_schema b).properties.lookup "continuation_id" = some continuationIdProp
      ∧ "continuation_id" ∉ (DepMapTool.get_input_schema b).required)
    ∧ ((ValidatorTool.get_input_schema b).properties.lookup "temperature" = some temperatureProp
      ∧ (ValidatorTool.get_input_schema b).properties.lookup "thinking_mode" = some thinkingModeProp
      ∧ (ValidatorTool.get_input_schema b).properties.lookup "continuation_id" = some continuationIdProp
      ∧ "continuation_id" ∉ (ValidatorTool.get_input_schema b).required)
    ∧ temperatureProp.jtype = .number ∧ temperatureProp.minimum = some 0
    ∧ temperatureProp.maximum = some 1
    ∧ thinkingModeProp.jtype = .string
    ∧ thinkingModeProp.enumVals = some ["minimal", "low", "medium", "high", "max"]
    ∧ continuationIdProp.jtype = .string := by
  cases b <;> decide

/-- C8: each of the three tools' `get_model_category()` returns
`ToolModelCategory.FAST_RESPONSE`. -/
theorem c8_model_category_fast_response :
    AutoTestTool.get_model_category = ToolModelCategory.FAST_RESPONSE
    ∧ DepMapTool.get_model_category = ToolModelCategory.FAST_RESPONSE
    ∧ ValidatorTool.get_model_category = ToolModelCategory.FAST_RESPONSE :=
  ⟨rfl, rfl, rfl⟩

/-! ## Provider Router (spec-modelled: §3, §4.1–§4.3 of the spec; the
router/provider implementation is not among the sources) -/

/-- Modelled from the spec: §3 `ModelCapabilities` (temperature range as a
closed rational interval). -/
structure ModelCapabilities where
  model_id : String
  context_window_tokens : Nat
  temperature_min : Rat
  temperature_max : Rat
  supports_extended_reasoning : Bool
  supports_images : Bool
deriving DecidableEq

/-- Modelled from the spec: §3 / §6 generation result. -/
structure ResponseEnvelope where
  content : String
  model_name : String
  total_tokens : Nat
deriving DecidableEq, Repr

/-- Modelled from the spec: §3 `thinking_effort` enum. -/
inductive ThinkingEffort
  | minimal | low | medium | high | max
deriving DecidableEq, Repr

/-- Modelled from the spec: §3 `GenerationRequest`. -/
structure GenerationRequest where
  prompt : String
  model_id : Option String
  temperature : Option Rat
  thinking_effort : Option ThinkingEffort
  continuation_id : Option String

/-- Modelled from the spec: §7 routing error taxonomy (the part the router
raises before dispatch). -/
inductive RouteError
  | UnknownModelError
  | MissingModelError
  | CapabilityViolationError
deriving DecidableEq, Repr

/-- Modelled from the spec: the router's view of the Capability Registry,
the Continuation Store's model pinning, and the per-category defaults. -/
structure RouterConfig where
  registry : List ModelCapabilities
  pinned_model : String → Option String
  category_default : ToolModelCategory → Option String

/-- Modelled from the spec: §4.1 `capabilities_for`. -/
def capabilities_for (cfg : RouterConfig) (mid : String) : Option ModelCapabilities :=
  cfg.registry.find? (fun c => c.model_id == mid)

/-- Modelled from the spec: §4.3 selection steps 1–3 (explicit model, then
conversation-pinned model, then category default, else `MissingModelError`). -/
def resolve_model (cfg : RouterConfig) (category : ToolModelCategory)
    (req : GenerationRequest) : Except RouteError ModelCapabilities :=
  match req.model_id with
  | some mid =>
    match capabilities_for cfg mid with
    | some c => .ok c
    | none => .error .UnknownModelError
  | none =>
    match req.continuation_id.bind cfg.pinned_model with
    | some mid =>
      match capabilities_for cfg mid with
      | some c => .ok c
      | none => .error .UnknownModelError
    | none =>
      match cfg.category_default category with
      | some mid =>
        match capabilities_for cfg mid with
        | some c => .ok c
        | none => .error .UnknownModelError
      | none => .error .MissingModelError

/-- Modelled from the spec: §4.3 steps 4–5 — capability validation, then
dispatch to the adapter. The second component counts the network calls made
to any provider adapter (dispatch issues exactly one). -/
def route (cfg : RouterConfig) (adapter : String → String → ResponseEnvelope)
    (category : ToolModelCategory) (req : GenerationRequest) :
    Except RouteError ResponseEnvelope × Nat :=
  match resolve_model cfg category req with
  | .error e => (.error e, 0)
  | .ok caps =>
    let tempOk :=
      match req.temperature with
      | none => true
      | some t => decide (caps.temperature_min ≤ t ∧ t ≤ caps.temperature_max)
    let thinkOk :=
      match req.thinking_effort with
      | none => true
      | some _ => caps.supports_extended_reasoning
    if tempOk && thinkOk then (.ok (adapter caps.model_id req.prompt), 1)
    else (.error .CapabilityViolationError, 0)

/-- C5: whenever the requested temperature lies outside the resolved model's
temperature range, `route` fails with `CapabilityViolationError` and issues
zero network calls to any provider adapter. -/
theorem c5_out_of_range_temperature_no_network (cfg : RouterConfig)
    (adapter : String → String → ResponseEnvelope) (category : ToolModelCategory)
    (req : GenerationRequest) (caps : ModelCapabilities) (t : Rat)
    (hres : resolve_model cfg category req = .ok caps)
    (ht : req.temperature = some t)
    (hout : t < caps.temperature_min ∨ caps.temperature_max < t) :
    route cfg adapter category req = (.error .CapabilityViolationError, 0) := by
  have hfalse : decide (caps.temperature_min ≤ t ∧ t ≤ caps.temperature_max) = false := by
    apply decide_eq_false
    rintro ⟨h1, h2⟩
    rcases hout with h | h
    · exact absurd h1 (not_le.mpr h)
    · exact absurd h2 (not_le.mpr h)
  simp [route, hres, ht, hfalse]

/-- Witness for C5: a one-model registry allowing temperature in `[0, 1]`
rejects a request at temperature `3/2` without any adapter call. -/
theorem c5_out_of_range_temperature_no_network_witness :
    route
      { registry := [⟨"model-A", 1000, 0, 1, true, false⟩],
        pinned_model := fun _ => none, category_default := fun _ => none }
      (fun m p => ⟨p, m, 5⟩) ToolModelCategory.FAST_RESPONSE
      { prompt := "2+2?", model_id := some "model-A", temperature := some (3/2),
        thinking_effort := none, continuation_id := none }
      = (.error .CapabilityViolationError, 0) :=
  c5_out_of_range_temperature_no_network _ _ _ _ ⟨"model-A", 1000, 0, 1, true, false⟩ (3/2)
    rfl rfl (by right; norm_num)

/-! ## Prompt assembly (Tool Contract Layer, §4.4) -/

/-- Modelled from the spec: the extra instruction the base tool adds for
models with extended-reasoning support ("an instruction to use structured
reasoning is appended only when the resolved model's
`supports_extended_reasoning` is true"). -/
def structured_reasoning_instruction : String :=
  "Use structured step-by-step reasoning before giving your final answer."

/-- Modelled from the spec: the shared `SimpleTool` base's
capability-conditioned augmentation (the base class is not among the
sources); the instruction is included exactly when the resolved model
supports extended reasoning. -/
def base_capability_system_prompts (capabilities : Option ModelCapabilities) : List String :=
  match capabilities with
  | some c => if c.supports_extended_reasoning then [structured_reasoning_instruction] else []
  | none => []

/-- `AutoTestTool.get_system_prompt` (verbatim source text). -/
def AutoTestTool.get_system_prompt : String :=
  "You are an auto-test assistant. Your job is to:\n1. Detect which files have been changed\n2. Find relevant test files for those changes\n3. Run the tests and report results clearly\n4. Highlight any failures with actionable suggestions\n\nBe concise but thorough. Focus on FAILED tests first, then show summary.\n"

/-- `AutoTestTool.get_capability_system_prompts` — the source returns
`list(super().get_capability_system_prompts(capabilities))`, i.e. a copy of
the base augmentation. -/
def AutoTestTool.get_capability_system_prompts (capabilities : Option ModelCapabilities) :
    List String :=
  base_capability_system_prompts capabilities

/-- `DepMapTool.get_system_prompt` (verbatim source text). -/
def DepMapTool.get_system_prompt : String :=
  "You are a dependency analysis assistant. Your job is to:\n1. Analyze import statements in the target file\n2. Find all files that import the target file\n3. Present a clear dependency map showing relationships\n4. Highlight high-risk changes (many incoming dependencies)\n\nBe concise but thorough. Focus on actionable insights.\n"

/-- `DepMapTool.get_capability_system_prompts` — copy of the base augmentation. -/
def DepMapTool.get_capability_system_prompts (capabilities : Option ModelCapabilities) :
    List String :=
  base_capability_system_prompts capabilities

/-- `ValidatorTool.get_system_prompt` (verbatim source text). -/
def ValidatorTool.get_system_prompt : String :=
  "You are a code validation assistant. Your job is to:\n1. Check Python syntax for errors\n2. Verify all imports can be resolved\n3. Identify unused imports and variables\n4. Report issues with clear explanations and line numbers\n\nBe concise but thorough. Prioritize errors over warnings.\n"

/-- `ValidatorTool.get_capability_system_prompts` — copy of the base augmentation. -/
def ValidatorTool.get_capability_system_prompts (capabilities : Option ModelCapabilities) :
    List String :=
  base_capability_system_prompts capabilities

/-- Modelled from the spec: §4.4 final prompt assembly — tool system prompt,
then capability-conditioned augmentation, then caller-supplied content. -/
def assemble_prompt (system_prompt : String) (augmentations : List String)
    (content : String) : String :=
  system_prompt ++ String.join (augmentations.map (fun a => a ++ "\n")) ++ content

/-- The text contributed by the capability augmentation. -/
def augmentation_text (augmentations : List String) : String :=
  String.join (augmentations.map (fun a => a ++ "\n"))

/-- C6: for each tool, the final prompt handed to the Router is, in order,
the tool's system prompt, then the capability-conditioned augmentation, then
the caller-supplied content; and the augmentation contains the structured
reasoning instruction exactly when the resolved model supports extended
reasoning. -/
theorem c6_prompt_order_and_capability_augmentation
    (capabilities : Option ModelCapabilities) (content : String) :
    (assemble_prompt AutoTestTool.get_system_prompt
        (AutoTestTool.get_capability_system_prompts capabilities) content
      = AutoTestTool.get_system_prompt
        ++ augmentation_text (AutoTestTool.get_capability_system_prompts capabilities)
        ++ content)
    ∧ (assemble_prompt DepMapTool.get_system_prompt
        (DepMapTool.get_capability_system_prompts capabilities) content
      = DepMapTool.get_system_prompt
        ++ augmentation_text (DepMapTool.get_capability_system_prompts capabilities)
        ++ content)
    ∧ (assemble_prompt ValidatorTool.get_system_prompt
        (ValidatorTool.get_capability_system_prompts capabilities) content
      = ValidatorTool.get_system_prompt
        ++ augmentation_text (ValidatorTool.get_capability_system_prompts capabilities)
        ++ content)
    ∧ (structured_reasoning_instruction ∈ AutoTestTool.get_capability_system_prompts capabilities
        ↔ ∃ c, capabilities = some c ∧ c.supports_extended_reasoning = true)
    ∧ (structured_reasoning_instruction ∈ DepMapTool.get_capability_system_prompts capabilities
        ↔ ∃ c, capabilities = some c ∧ c.supports_extended_reasoning = true)
    ∧ (structured_reasoning_instruction ∈ ValidatorTool.get_capability_system_prompts capabilities
        ↔ ∃ c, capabilities = some c ∧ c.supports_extended_reasoning = true) := by
  refine ⟨rfl, rfl, rfl, ?_, ?_, ?_⟩ <;>
    · rcases capabilities with _ | c
      · simp [AutoTestTool.get_capability_system_prompts,
          DepMapTool.get_capability_system_prompts,
          ValidatorTool.get_capability_system_prompts,
          base_capability_system_prompts]
      · by_cases h : c.supports_extended_reasoning <;>
          simp [AutoTestTool.get_capability_system_prompts,
            DepMapTool.get_capability_system_prompts,
            ValidatorTool.get_capability_system_prompts,
            base_capability_system_prompts, h]

/-! ## Provider test harness (`test_all_providers.py`) -/

/-- The three vendor credential environment variables. -/
structure ProviderEnv where
  gemini_api_key : Option String
  openai_api_key : Option String
  xai_api_key : Option String

/-- Observable outcome of one run of the harness: process exit status, how
many provider adapters were constructed, and how many vendor network calls
were issued. -/
structure HarnessRun where
  exit_code : Nat
  adapters_constructed : Nat
  network_calls : Nat
deriving DecidableEq, Repr

/-- Embedding of `test_all_providers.py`: the module-level key checks run
first and `sys.exit(1)` fires before any provider import, construction or
call; `main()` then tests the three providers in order, each constructing
one adapter and issuing one `generate_content` call, whose success is
abstracted by `call_ok` on the model name. -/
def test_all_providers (env : ProviderEnv) (call_ok : String → Bool) : HarnessRun :=
  match env.gemini_api_key with
  | none => { exit_code := 1, adapters_constructed := 0, network_calls := 0 }
  | some _ =>
    match env.openai_api_key with
    | none => { exit_code := 1, adapters_constructed := 0, network_calls := 0 }
    | some _ =>
      match env.xai_api_key with
      | none => { exit_code := 1, adapters_constructed := 0, network_calls := 0 }
      | some _ =>
        let all_ok := call_ok "gemini-2.5-flash" && call_ok "gpt-4o-mini" && call_ok "grok-4"
        { exit_code := if all_ok then 0 else 1, adapters_constructed := 3, network_calls := 3 }

/-- C7: if any of the Gemini, OpenAI or xAI environment variables is absent,
the provider test harness exits with status 1 before constructing any
provider adapter and before issuing any network call. -/
theorem c7_missing_credential_fails_fast (env : ProviderEnv) (call_ok : String → Bool)
    (h : env.gemini_api_key = none ∨ env.openai_api_key = none ∨ env.xai_api_key = none) :
    test_all_providers env call_ok
      = { exit_code := 1, adapters_constructed := 0, network_calls := 0 } := by
  cases hg : env.gemini_api_key with
  | none => simp [test_all_providers, hg]
  | some _ =>
    cases ho : env.openai_api_key with
    | none => simp [test_all_providers, hg, ho]
    | some _ =>
      cases hx : env.xai_api_key with
      | none => simp [test_all_providers, hg, ho, hx]
      | some _ => rcases h with h | h | h <;> simp_all

/-- Witness for C7: with the Gemini key absent the run exits 1, constructs
nothing and does not touch the network. -/
theorem c7_missing_credential_fails_fast_witness :
    test_all_providers ⟨none, some "sk-1", some "sk-2"⟩ (fun _ => true)
      = { exit_code := 1, adapters_constructed := 0, network_calls := 0 } :=
  c7_missing_credential_fails_fast ⟨none, some "sk-1", some "sk-2"⟩ (fun _ => true)
    (Or.inl rfl)

/-! ## Path helpers shared by the tool embeddings -/

/-- CPython `pathlib` suffix of a file name: the part from the last dot,
provided that dot is neither the first nor the last character. -/
def pySuffix (name : String) : String :=
  let cs := name.toList
  match ((List.range cs.length).filter (fun i => cs.getD i ' ' = '.')).getLast? with
  | some i => if 0 < i && i + 1 < cs.length then String.mk (cs.drop i) else ""
  | none => ""

/-- `pathlib` `with_suffix("")` / `stem` on a file name: the name with its
suffix removed. -/
def stripSuffix (name : String) : String :=
  name.dropRight (pySuffix name).length

/-- Split a character list on a separator (used instead of `String.splitOn`
so that concrete evaluations reduce in the kernel). -/
def splitChar (sep : Char) : List Char → List (List Char)
  | [] => [[]]
  | c :: cs =>
    let rest := splitChar sep cs
    if c = sep then [] :: rest
    else
      match rest with
      | r :: rs => (c :: r) :: rs
      | [] => [[c]]

/-- Split a string on a separator character. -/
def splitStr (sep : Char) (s : String) : List String :=
  (splitChar sep s.toList).map String.mk

/-- The last component of a slash-separated path string (`Path.name`). -/
def pathName (p : String) : String :=
  (splitStr '/' p).getLastD ""

/-! ## `ValidatorTool.prepare_prompt` (`tools/validator.py`) -/

/-- File-system interface used by the validator: existence, and reading a
file as UTF-8 text (`.error` is the exception message caught by the
source's `except Exception`). -/
structure FS where
  fexists : String → Bool
  read : String → Except String String

/-- `ValidatorRequest` (pydantic model; defaults from the source). -/
structure ValidatorRequest where
  target_file : String
  check_imports : Bool := true
  check_types : Bool := false

/-- The four analysis passes of the validator, abstracted as oracles on the
file's source text: `_check_syntax`-style compile check (`some msg` on
failure), `_check_imports`, `_check_unused_imports`, `_check_types`. Their
internals run the CPython compiler/importer, which the embedding does not
model; `ValidatorTool.prepare_prompt` only consumes their results. -/
structure PyAnalysis where
  checkCompile : String → Option String
  checkImports : String → List String
  checkUnusedImports : String → List String
  checkTypes : String → List String

namespace ValidatorTool

/-- The issue/warning collection block of `ValidatorTool.prepare_prompt`
(lines 182–206): the compile check runs first; only when it reports nothing
do the import check (if enabled), the unused-import check, and the type
check (if enabled) run. Returns `(issues, warnings)`. -/
def validationOutcome (A : PyAnalysis) (req : ValidatorRequest) (code : String) :
    List String × List String :=
  let issues0 :=
    match A.checkCompile code with
    | some s => [s]
    | none => []
  if issues0.isEmpty then
    let issues1 := if req.check_imports then A.checkImports code else []
    let unusedNames := A.checkUnusedImports code
    let warnings1 :=
      if unusedNames.isEmpty then []
      else
        let joined := String.intercalate ", " unusedNames
        ["Unused imports: " ++ joined]
    let warnings2 := if req.check_types then A.checkTypes code else []
    (issues1, warnings1 ++ warnings2)
  else
    (issues0, [])

/-- The status line computed at line 209 of the source:
`"✗ INVALID" if issues else "✓ VALID"`. -/
def statusOf (issues : List String) : String :=
  if issues.isEmpty then "✓ VALID" else "✗ INVALID"

/-- The report rendering of `ValidatorTool.prepare_prompt` (lines 208–243). -/
def renderReport (target : String) (issues warnings : List String) : String :=
  let eq80 := String.mk (List.replicate 80 '=')
  let header := "\nCODE VALIDATION RESULT: " ++ statusOf issues ++ "\n" ++ eq80
    ++ "\n\nFile: " ++ target ++ "\n\n"
  let errBlock :=
    if issues.isEmpty then ""
    else "ERRORS:\n" ++ String.join (issues.map (fun i => "  ✗ " ++ i ++ "\n")) ++ "\n"
  let warnBlock :=
    if warnings.isEmpty then ""
    else "WARNINGS:\n" ++ String.join (warnings.map (fun w => "  ⚠ " ++ w ++ "\n")) ++ "\n"
  let cleanLine :=
    if issues.isEmpty && warnings.isEmpty then
      "✓ No issues found. Code passes all validation checks.\n\n"
    else ""
  header ++ errBlock ++ warnBlock ++ cleanLine
    ++ "\n" ++ eq80
    ++ "\n\nAnalyze these validation results and provide:\n1. Summary of critical issues (if any)\n2. Explanation of each error with fix suggestions\n3. Priority order for addressing issues\n4. Any patterns or best practices to apply\n"

/-- `ValidatorTool.prepare_prompt`. -/
def prepare_prompt (fs : FS) (A : PyAnalysis) (req : ValidatorRequest) : String :=
  if !(fs.fexists req.target_file) then
    "Error: Target file does not exist: " ++ req.target_file
  else if !(pySuffix (pathName req.target_file) == ".py") then
    "Error: Target file must be a Python file (.py): " ++ req.target_file
  else
    match fs.read req.target_file with
    | .error e => "Error reading file: " ++ e
    | .ok code =>
      let r := validationOutcome A req code
      renderReport req.target_file r.1 r.2

end ValidatorTool

/-- C9: for an existing, readable Python target, the validator reports
`"✓ VALID"` exactly when the collected issues list is empty (warnings never
flip the status, which is a function of the issues alone and is otherwise
`"✗ INVALID"`), and when the compile check fails no further check runs, so
the issues list holds exactly the compile error and the warnings are empty. -/
theorem c9_validator_status (fs : FS) (A : PyAnalysis) (req : ValidatorRequest) (code : String)
    (hex : fs.fexists req.target_file = true)
    (hpy : pySuffix (pathName req.target_file) = ".py")
    (hread : fs.read req.target_file = .ok code) :
    (ValidatorTool.prepare_prompt fs A req
        = ValidatorTool.renderReport req.target_file
            (ValidatorTool.validationOutcome A req code).1
            (ValidatorTool.validationOutcome A req code).2)
    ∧ (ValidatorTool.statusOf (ValidatorTool.validationOutcome A req code).1 = "✓ VALID"
        ↔ (ValidatorTool.validationOutcome A req code).1 = [])
    ∧ (ValidatorTool.statusOf (ValidatorTool.validationOutcome A req code).1 = "✓ VALID"
        ∨ ValidatorTool.statusOf (ValidatorTool.validationOutcome A req code).1 = "✗ INVALID")
    ∧ (∀ e, A.checkCompile code = some e →
        ValidatorTool.validationOutcome A req code = ([e], [])) := by
  refine ⟨?_, ?_, ?_, ?_⟩
  · simp [ValidatorTool.prepare_prompt, hex, hpy, hread]
  · unfold ValidatorTool.statusOf
    by_cases h : (ValidatorTool.validationOutcome A req code).1.isEmpty
    · simp [h, List.isEmpty_iff.mp h]
    · simp only [h, if_false]
      constructor
      · intro habs
        exact absurd habs (by decide)
      · intro hnil
        exact absurd (List.isEmpty_iff.mpr hnil) h
  · unfold ValidatorTool.statusOf
    by_cases h : (ValidatorTool.validationOutcome A req code).1.isEmpty <;> simp [h]
  · intro e he
    simp [ValidatorTool.validationOutcome, he]

/-- Witness for C9: a file whose compile check fails yields exactly that
error, empty warnings, and the `✗ INVALID` rendering. -/
theorem c9_validator_status_witness :
    (ValidatorTool.prepare_prompt
        { fexists := fun p => p == "/proj/bad.py",
          read := fun _ => .ok "def f(:" }
        { checkCompile := fun _ => some "Syntax error at line 1: invalid syntax",
          checkImports := fun _ => ["Cannot resolve import: nomod (line 2)"],
          checkUnusedImports := fun _ => ["os"],
          checkTypes := fun _ => [] }
        { target_file := "/proj/bad.py" }
      = ValidatorTool.renderReport "/proj/bad.py"
          ["Syntax error at line 1: invalid syntax"] [])
    ∧ ValidatorTool.validationOutcome
        { checkCompile := fun _ => some "Syntax error at line 1: invalid syntax",
          checkImports := fun _ => ["Cannot resolve import: nomod (line 2)"],
          checkUnusedImports := fun _ => ["os"],
          checkTypes := fun _ => [] }
        { target_file := "/proj/bad.py" } "def f(:"
      = (["Syntax error at line 1: invalid syntax"], []) := by
  have h := c9_validator_status
    { fexists := fun p => p == "/proj/bad.py",
      read := fun _ => .ok "def f(:" }
    { checkCompile := fun _ => some "Syntax error at line 1: invalid syntax",
      checkImports := fun _ => ["Cannot resolve import: nomod (line 2)"],
      checkUnusedImports := fun _ => ["os"],
      checkTypes := fun _ => [] }
    { target_file := "/proj/bad.py" } "def f(:"
    (by decide) (by decide) rfl
  have h4 := h.2.2.2 "Syntax error at line 1: invalid syntax" rfl
  refine ⟨?_, h4⟩
  rw [h.1, h4]

/-! ## `DepMapTool._find_importers` (`tools/depmap.py`) -/

/-- A path relative to the working directory, as a list of components
(canonical: no empty, `"."` or `".."` components). -/
abbrev RelPath := List String

/-- File-system view used by the dependency mapper: the results of
`working_dir.rglob("*.py")` as working-directory-relative paths, and file
reading (`.error` is an exception caught by the per-file `except`). -/
structure DepFS where
  pyFiles : List RelPath
  read : RelPath → Except String String

/-- The three regex patterns built at lines 248–253 of the source, as data:
`^import\s+{module_path}\b`, `^from\s+{module_path}\s+import`, and
`^from\s+\.+{stem}\s+import`. -/
inductive ImportPattern
  | plainImport (module_path : String)
  | fromImport (module_path : String)
  | relFromImport (stem : String)
deriving DecidableEq, Repr

/-- One entry appended by `_find_importers`:
`{"file": str(py_file.relative_to(working_dir)), "type": "direct"}` (the
file is kept as a `RelPath`; its string rendering is a display concern). -/
structure ImporterEntry where
  file : RelPath
  entryType : String
deriving DecidableEq, Repr

namespace DepMapTool

/-- `str(rel_path.with_suffix("")).replace(os.sep, ".")`, with the
`__init__.py` special case of lines 235–236 (`str(rel_path.parent)` is
`"."` for a top-level file). -/
def modulePathOf (rel : RelPath) : String :=
  if rel.getLastD "" = "__init__.py" then
    if rel.dropLast.isEmpty then "." else String.intercalate "." rel.dropLast
  else
    String.intercalate "." (rel.dropLast ++ [stripSuffix (rel.getLastD "")])

/-- `target_file.stem`. -/
def stemOf (rel : RelPath) : String := stripSuffix (rel.getLastD "")

/-- The pattern list of lines 248–253. -/
def patternsFor (module_path stem : String) : List ImportPattern :=
  [.plainImport module_path, .fromImport module_path, .relFromImport stem]

/-- `DepMapTool._find_importers`. `relTo` is the result of
`target_file.relative_to(working_dir)` (``none`` when that raises
`ValueError`, in which case the outer `except` returns the empty list).
Regex search over the file text is abstracted by `reSearch`. A file is
listed when it is not the target, reads successfully, and some pattern
matches its text (per-file read errors are skipped by the inner `except`). -/
def find_importers (reSearch : ImportPattern → String → Bool) (fs : DepFS)
    (relTo : Option RelPath) : List ImporterEntry :=
  match relTo with
  | none => []
  | some rel =>
    let module_path := modulePathOf rel
    let pats := patternsFor module_path (stemOf rel)
    (fs.pyFiles.filter (fun p => decide (p ≠ rel))).filterMap (fun p =>
      match fs.read p with
      | .error _ => none
      | .ok content =>
        if pats.any (fun pat => reSearch pat content) then
          some { file := p, entryType := "direct" }
        else none)

end DepMapTool

/-- C10: the incoming-dependency list produced by `_find_importers` never
contains the target file itself, and every listed importer is a Python file
found under the working directory whose text matches one of the import
patterns built for the target's module path. -/
theorem c10_find_importers_sound (reSearch : ImportPattern → String → Bool)
    (fs : DepFS) (relTo : Option RelPath) (e : ImporterEntry)
    (he : e ∈ DepMapTool.find_importers reSearch fs relTo) :
    ∃ rel, relTo = some rel ∧ e.file ≠ rel ∧ e.file ∈ fs.pyFiles
      ∧ ∃ content, fs.read e.file = .ok content
        ∧ (DepMapTool.patternsFor (DepMapTool.modulePathOf rel)
              (DepMapTool.stemOf rel)).any (fun pat => reSearch pat content) = true := by
  match hrel : relTo with
  | none => simp [DepMapTool.find_importers, hrel] at he
  | some rel =>
    refine ⟨rel, rfl, ?_⟩
    simp only [DepMapTool.find_importers, List.mem_filterMap, List.mem_filter] at he
    obtain ⟨p, ⟨hmem, hne⟩, hpe⟩ := he
    match hr : fs.read p with
    | .error msg => simp [hr] at hpe
    | .ok content =>
      simp only [hr] at hpe
      by_cases hm : ((DepMapTool.patternsFor (DepMapTool.modulePathOf rel)
          (DepMapTool.stemOf rel)).any (fun pat => reSearch pat content)) = true
      · rw [if_pos hm] at hpe
        cases hpe
        exact ⟨of_decide_eq_true hne, hmem, content, hr, hm⟩
      · rw [if_neg hm] at hpe
        exact absurd hpe (by simp)

/-- Witness for C10: with two files `a.py` and `b.py`, target `a.py` and a
match oracle that accepts everything, exactly `b.py` is listed, and the
soundness facts hold for it. -/
theorem c10_find_importers_sound_witness :
    (DepMapTool.find_importers (fun _ _ => true)
        { pyFiles := [["a.py"], ["b.py"]], read := fun _ => .ok "import a" }
        (some ["a.py"])
      = [{ file := ["b.py"], entryType := "direct" }])
    ∧ ∃ rel, (some ["a.py"] : Option RelPath) = some rel
        ∧ (["b.py"] : RelPath) ≠ rel ∧ (["b.py"] : RelPath) ∈ [(["a.py"] : RelPath), ["b.py"]]
        ∧ ∃ content,
            (({ pyFiles := [["a.py"], ["b.py"]], read := fun _ => .ok "import a" } : DepFS).read
                ["b.py"] = .ok content)
          ∧ (DepMapTool.patternsFor (DepMapTool.modulePathOf rel)
                (DepMapTool.stemOf rel)).any (fun pat => (fun _ _ => true) pat content) = true := by
  constructor
  · rfl
  · have h := c10_find_importers_sound (fun _ _ => true)
      { pyFiles := [["a.py"], ["b.py"]], read := fun _ => .ok "import a" }
      (some ["a.py"]) { file := ["b.py"], entryType := "direct" }
      (by rw [show DepMapTool.find_importers (fun _ _ => true)
            { pyFiles := [["a.py"], ["b.py"]], read := fun _ => .ok "import a" }
            (some ["a.py"])
          = [{ file := ["b.py"], entryType := "direct" }] from rfl]; simp)
    exact h

/-! ## `AutoTestTool.prepare_prompt` (`tools/autotest.py`)

The embedding keeps Python exceptions explicit: `prepare_prompt` returns
`Except PyError String`, and an `.error` result is an exception that no
`try/except` in the source catches. -/

/-- A `pathlib.Path`: absolute flag plus components (empty and `"."`
components are normalized away, as `pathlib` does; `".."` is kept). -/
structure APath where
  absolute : Bool
  comps : List String
deriving DecidableEq, Repr

/-- Whether a string starts with `'/'` (kernel-reducible form). -/
def startsSlash (s : String) : Bool :=
  match s.toList with
  | c :: _ => decide (c = '/')
  | [] => false

/-- `Path(s)` for a slash-separated string. -/
def parsePath (s : String) : APath :=
  { absolute := startsSlash s,
    comps := (splitStr '/' s).filter (fun c => !(c == "" || c == ".")) }

/-- `Path.name`. -/
def APath.name (p : APath) : String := p.comps.getLastD ""

/-- `Path.parent`. -/
def APath.parent (p : APath) : APath := ⟨p.absolute, p.comps.dropLast⟩

/-- `Path / component`. -/
def APath.child (p : APath) (n : String) : APath := ⟨p.absolute, p.comps ++ [n]⟩

/-- `Path.parts` (an absolute path's first part is `"/"`). -/
def APath.parts (p : APath) : List String :=
  if p.absolute then "/" :: p.comps else p.comps

/-- `str(Path)`. -/
def APath.render (p : APath) : String :=
  if p.absolute then "/" ++ String.intercalate "/" p.comps
  else if p.comps.isEmpty then "." else String.intercalate "/" p.comps

/-- A Python exception escaping the embedded code. -/
inductive PyError
  | valueError (msg : String)
deriving DecidableEq, Repr

/-- `Path.relative_to(base)`: purely lexical — succeeds exactly when both
paths share the absolute flag and `base`'s components are a prefix,
otherwise raises `ValueError`. -/
def APath.relative_to (p base : APath) : Except String APath :=
  if p.absolute == base.absolute && base.comps.isPrefixOf p.comps then
    .ok ⟨false, p.comps.drop base.comps.length⟩
  else
    .error (p.render ++ " is not in the subpath of " ++ base.render)

/-- File-system view for the auto-test tool: the process working directory
(`Path.exists` resolves relative paths against it) and existence of
absolute paths. -/
structure AutoFS where
  cwd : List String
  existsAbs : List String → Bool

/-- `Path.exists()`. -/
def AutoFS.fexists (fs : AutoFS) (p : APath) : Bool :=
  fs.existsAbs (if p.absolute then p.comps else fs.cwd ++ p.comps)

/-- Outcome of one `subprocess.run` call: normal completion,
`TimeoutExpired`, or another raised exception. -/
inductive SubprocResult
  | completed (returncode : Int) (stdout stderr : String)
  | timedOut
  | raised (msg : String)
deriving DecidableEq, Repr

/-- Environment of one `AutoTestTool.prepare_prompt` run: the file system
and the three subprocess invocations the source can make (`git diff
--name-only HEAD`, `git diff --name-only`, and the test command). -/
structure AutoEnv where
  fs : AutoFS
  gitDiffHead : SubprocResult
  gitDiffUnstaged : SubprocResult
  runCmd : List String → SubprocResult

/-- `[f.strip() for f in out.split("\n") if f.strip()]`. -/
def cleanLines (out : String) : List String :=
  ((splitStr '\n' out).map String.trim).filter (fun f => !(f == ""))

/-- `list(set(files))`, modelled as first-occurrence deduplication (Python
set iteration order is not observable to any claim). -/
def dedupFiles (l : List String) : List String := l.eraseDups

/-- `set.add`, modelled on an insertion-ordered duplicate-free list. -/
def addSet (l : List String) (x : String) : List String :=
  if l.contains x then l else l ++ [x]

/-- The Python `repr` of a list of strings, as interpolated by
`f"...: {changed_files}"`. -/
def pyListRepr (l : List String) : String :=
  "[" ++ String.intercalate ", " (l.map (fun s => "'" ++ s ++ "'")) ++ "]"

namespace AutoTestTool

/-- `AutoTestRequest` (pydantic model; defaults from the source). -/
structure Request where
  working_directory : String
  changed_files : Option (List String) := none
  test_framework : String := "pytest"

/-- `AutoTestTool._get_git_changed_files`: every raised exception (of either
`subprocess.run`, timeout included) is caught by the enclosing
`except Exception` and yields `[]`; a nonzero exit of the first diff also
yields `[]`; otherwise the two diffs' lines are combined and deduplicated. -/
def get_git_changed_files (env : AutoEnv) : List String :=
  match env.gitDiffHead with
  | .timedOut => []
  | .raised _ => []
  | .completed rc out _ =>
    if rc != 0 then []
    else
      let files := cleanLines out
      match env.gitDiffUnstaged with
      | .timedOut => []
      | .raised _ => []
      | .completed rc2 out2 _ =>
        let combined := if rc2 == 0 then files ++ cleanLines out2 else files
        dedupFiles combined

/-- The per-changed-file body of the loop in
`AutoTestTool._find_relevant_tests` (lines 256–274). The two
`relative_to(working_dir)` calls are not guarded by any `try`, so their
`ValueError` propagates. -/
def findTestsForFile (fs : AutoFS) (working_dir : APath) (acc0 : List String)
    (changed_file : String) : Except PyError (List String) := do
  let file_path := parsePath changed_file
  if strHas file_path.name "test"
      || (!file_path.parts.isEmpty && strHas (file_path.parts.headD "") "test") then
    return addSet acc0 changed_file
  let mut acc := acc0
  let test_name := "test_" ++ stripSuffix file_path.name ++ ".py"
  let test_path := (working_dir.child "tests").child test_name
  if AutoFS.fexists fs test_path then
    match test_path.relative_to working_dir with
    | .ok r => acc := addSet acc r.render
    | .error m => throw (PyError.valueError m)
  let test_path2 := file_path.parent.child test_name
  if AutoFS.fexists fs test_path2 then
    match test_path2.relative_to working_dir with
    | .ok r2 => acc := addSet acc r2.render
    | .error m => throw (PyError.valueError m)
  return acc

/-- `AutoTestTool._find_relevant_tests` (lines 252–282). -/
def find_relevant_tests (fs : AutoFS) (working_dir : APath)
    (changed_files : List String) : Except PyError (List String) := do
  let mut test_files : List String := []
  for cf in changed_files do
    test_files ← findTestsForFile fs working_dir test_files cf
  if test_files.isEmpty then
    if AutoFS.fexists fs (working_dir.child "tests") then
      test_files := addSet test_files "tests/"
  return test_files

/-- `AutoTestTool._run_tests` (lines 284–315): every failure of the test
subprocess is converted into an error string (the working directory is
carried by `env.runCmd`). -/
def run_tests (env : AutoEnv) (test_files : List String) (framework : String) : String :=
  let cmd? : Option (List String) :=
    if framework == "pytest" then some (["pytest", "-v", "--tb=short"] ++ test_files)
    else if framework == "unittest" then some (["python", "-m", "unittest"] ++ test_files)
    else none
  match cmd? with
  | none => "Unsupported test framework: " ++ framework
  | some cmd =>
    match env.runCmd cmd with
    | .completed _ out err =>
      let output := out ++ "\n" ++ err
      if output.length > 10000 then output.take 10000 ++ "\n\n[Output truncated - too long]"
      else output
    | .timedOut => "ERROR: Tests timed out after 5 minutes"
    | .raised m => "ERROR running tests: " ++ m

/-- The result formatting of `AutoTestTool.prepare_prompt` (lines 190–213). -/
def formatPrompt (changed_files test_files : List String) (test_results : String) : String :=
  "\nTEST RESULTS FOR CHANGED FILES\n================================\n\nChanged Files:\n"
    ++ String.intercalate "\n" (changed_files.map (fun f => "  - " ++ f))
    ++ "\n\nTest Files Run:\n"
    ++ String.intercalate "\n" (test_files.map (fun f => "  - " ++ f))
    ++ "\n\nTest Output:\n" ++ test_results
    ++ "\n\n================================\n\nAnalyze these test results and provide:\n1. Summary (X passed, Y failed)\n2. Failed tests with specific error details\n3. Suggestions to fix failures\n4. Any warnings or issues to address\n"

/-- `AutoTestTool.prepare_prompt` (lines 156–213). An `.error` result is an
unhandled Python exception. -/
def prepare_prompt (env : AutoEnv) (req : Request) : Except PyError String := do
  let working_dir := parsePath req.working_directory
  if !(AutoFS.fexists env.fs working_dir) then
    return "Error: Working directory does not exist: " ++ working_dir.render
  let changed_files :=
    match req.changed_files with
    | some cfs => if cfs.isEmpty then get_git_changed_files env else cfs
    | none => get_git_changed_files env
  if changed_files.isEmpty then
    return "No changed files detected. Make some changes or specify files explicitly."
  let test_files ← find_relevant_tests env.fs working_dir changed_files
  if test_files.isEmpty then
    return "No test files found for changed files: " ++ pyListRepr changed_files
  let test_results := run_tests env test_files req.test_framework
  return formatPrompt changed_files test_files test_results

end AutoTestTool

/-- The environment exhibiting C2's failure: the process runs in `/srv`;
the file system holds the working directory `/proj`, the changed file
`/other/foo.py`, and its sibling test `/other/test_foo.py`; git and the
test runner are never reached. -/
def c2Env : AutoEnv :=
  { fs := { cwd := ["srv"],
            existsAbs := fun p =>
              p == ["proj"] || p == ["other"] || p == ["other", "foo.py"]
                || p == ["other", "test_foo.py"] },
    gitDiffHead := .raised "unused",
    gitDiffUnstaged := .raised "unused",
    runCmd := fun _ => .raised "unused" }

/-- The request exhibiting C2's failure: a schema-valid `autotest` request
whose changed file lies outside the working directory. -/
def c2Req : AutoTestTool.Request :=
  { working_directory := "/proj", changed_files := some ["/other/foo.py"] }

/-- C2 is violated by the code: on a validated `autotest` request whose
changed file `/other/foo.py` lies outside the working directory `/proj` and
has an existing sibling test file `/other/test_foo.py`,
`_find_relevant_tests` calls `test_path2.relative_to(working_dir)` outside
any `try`, and the resulting `ValueError` propagates out of
`prepare_prompt` instead of an error report being returned. -/
theorem c2_autotest_unhandled_value_error :
    AutoTestTool.prepare_prompt c2Env c2Req
      = .error (PyError.valueError "/other/test_foo.py is not in the subpath of /proj") := by
  rfl

end ZenMcp
